import Mathlib

/-!
Verification of the `uptime` heartbeat client (`src/uptime.ts`).

The embedding models the JavaScript semantics the client relies on:
numbers that can be non-integral or `NaN` ( `JsNum` ), truthiness of
strings/numbers/optional fields, template-literal stringification, the
`fetch` / `AbortController` / `setTimeout` interplay of `sendHeartbeat`
(the transport outcome is a parameter, and a trace records which
external effects the call performed), and the `catch` normalization of
errors into `UptimeError`.
-/

namespace UptimeClient

/-- Decimal digits of a natural number, most significant first (fuel-indexed). -/
def natToStringAux : Nat → Nat → List Char
  | 0, _ => []
  | fuel + 1, n =>
    if n < 10 then [Char.ofNat (48 + n)]
    else natToStringAux fuel (n / 10) ++ [Char.ofNat (48 + n % 10)]

/-- Decimal rendering of a natural number, as JavaScript renders it in a template literal. -/
def natToString (n : Nat) : String := String.mk (natToStringAux (n + 1) n)

/-- Decimal rendering of an integer, as JavaScript renders it in a template literal. -/
def intToString (k : Int) : String :=
  (if k < 0 then "-" else "") ++ natToString k.natAbs

/-- Digits after the decimal point of `n / d` (`n < d`), fuel-indexed; terminates
(with the full expansion) for every fraction with a finite decimal expansion. -/
def fracDigits : Nat → Nat → Nat → List Char
  | _, _, 0 => []
  | n, d, fuel + 1 =>
    if n = 0 then []
    else natToStringAux (n * 10 / d + 1) (n * 10 / d) ++ fracDigits (n * 10 % d) d fuel

/-- A JavaScript number as the client observes it: a rational value or `NaN`.
(The exit codes appearing in heartbeat options are JS numbers, not integers.) -/
inductive JsNum where
  | num (q : ℚ)
  | nan
deriving DecidableEq

/-- The JavaScript `<` comparison on numbers: any comparison involving `NaN` is false. -/
def JsNum.lt : JsNum → JsNum → Bool
  | .num a, .num b => decide (a < b)
  | _, _ => false

/-- JavaScript stringification of a number inside a template literal:
`NaN` renders as `"NaN"`, finite values in sign / integer part / fractional
digits form (fuel 64 covers every value with a finite decimal expansion
that the client can meet). -/
def JsNum.render : JsNum → String
  | .nan => "NaN"
  | .num q =>
    let n := q.num.natAbs
    let d := q.den
    let base := (if q.num < 0 then "-" else "") ++ natToString (n / d)
    if n % d = 0 then base else base ++ "." ++ String.mk (fracDigits (n % d) d 64)

/-- The HTTP methods the client accepts (`'HEAD' | 'GET' | 'POST'`). -/
inductive Method where
  | HEAD
  | GET
  | POST
deriving DecidableEq

/-- A low-level JavaScript error that a transport rejection or an abort can
produce: a `DOMException` carrying its `name`, or an ordinary error value. -/
inductive Cause where
  | domException (name : String)
  | error (message : String)
deriving DecidableEq

/-- Holds exactly when the value is a `DOMException` whose `name` is `"AbortError"`,
the test the `catch` block performs to recognize a cancellation. -/
def Cause.isAbort : Cause → Bool
  | .domException name => name = "AbortError"
  | .error _ => false

/-- The `UptimeError` class: message plus optional status, statusText and cause. -/
structure UptimeError where
  message : String
  status : Option Nat := none
  statusText : Option String := none
  cause : Option Cause := none
deriving DecidableEq

/-- A value reaching the `catch (error)` point of `sendHeartbeat`: either an
already-typed `UptimeError` (`error instanceof UptimeError`) or a low-level error. -/
inductive CaughtError where
  | uptime (e : UptimeError)
  | low (c : Cause)
deriving DecidableEq

/-- The part of a `fetch` `Response` the client reads: `status`, `statusText`
and the `ok` getter. -/
structure Response where
  status : Nat
  statusText : String
  ok : Bool
deriving DecidableEq

/-- The `HeartbeatOptions` object; absent fields are `none` (JS `undefined`). -/
structure HeartbeatOptions where
  exitCode : Option JsNum := none
  reportFailure : Option Bool := none
  method : Option Method := none
  timeout : Option Int := none
deriving DecidableEq

/-- The `UptimeConfig` object; absent fields are `none` (JS `undefined`). -/
structure UptimeConfig where
  baseUrl : Option String := none
  version : Option String := none
  defaultTimeout : Option Int := none
deriving DecidableEq

/-- The constructed client: the three fields set by the constructor. -/
structure Uptime where
  baseUrl : String
  userAgent : String
  defaultTimeout : Int
deriving DecidableEq

/-- The `Uptime` constructor. `if (config?.baseUrl)` keeps the default on a
falsy (absent or empty) base URL; `config?.version || '1.0.0'` and
`config?.defaultTimeout || 10000` substitute the default for a falsy
(absent, empty, zero) supplied value. Calling without argument is the
all-`none` config. -/
def Uptime.create (config : UptimeConfig := {}) : Uptime :=
  { baseUrl :=
      match config.baseUrl with
      | some b => if b = "" then "https://uptime.betterstack.com/api/v1" else b
      | none => "https://uptime.betterstack.com/api/v1"
    userAgent := "uptime-betterstack-bun/" ++
      (match config.version with
       | some v => if v = "" then "1.0.0" else v
       | none => "1.0.0")
    defaultTimeout :=
      match config.defaultTimeout with
      | some t => if t = 0 then 10000 else t
      | none => 10000 }

/-- The `buildHeartbeatUrl` method: throws (`Except.error`) an `UptimeError` with message
only when the id is empty (JS falsy string) or a present exit code fails the
`exitCode < 0 || exitCode > 255` check; `/fail` when `reportFailure` is truthy,
the exit code otherwise appended via template-literal stringification. -/
def Uptime.buildHeartbeatUrl (c : Uptime) (heartbeatId : String)
    (options : HeartbeatOptions := {}) : Except UptimeError String :=
  if heartbeatId = "" then
    .error { message := "Heartbeat ID is required" }
  else
    let url := c.baseUrl ++ "/heartbeat/" ++ heartbeatId
    if options.reportFailure = some true then
      .ok (url ++ "/fail")
    else
      match options.exitCode with
      | none => .ok url
      | some code =>
        if code.lt (.num 0) || (JsNum.num 255).lt code then
          .error { message := "Exit code must be between 0 and 255, got " ++ code.render }
        else
          .ok (url ++ "/" ++ code.render)

/-- What the body of `sendHeartbeat` did to its environment: whether `fetch`
was invoked and with what arguments, whether the cancellation timer was
started (`setTimeout`) and with what delay, and whether it was disarmed
(`clearTimeout`) during the call. -/
structure SendTrace where
  fetchCalled : Bool
  fetchUrl : Option String := none
  fetchMethod : Option Method := none
  fetchUserAgent : Option String := none
  fetchAccept : Option String := none
  timerStarted : Bool
  timerDelay : Option Int := none
  timerCleared : Bool
deriving DecidableEq

/-- How the awaited `fetch` settles: it resolves with a response, or it
rejects (a transport failure, or the `AbortError` `DOMException` produced
when the cancellation timer fires first). -/
inductive FetchResult where
  | resolves (r : Response)
  | rejects (e : CaughtError)
deriving DecidableEq

/-- The `catch (error)` block of `sendHeartbeat`: re-throws a typed error
unchanged, converts an `AbortError` `DOMException` into the timeout error
(message naming the effective timeout, cause the abort exception), and wraps
anything else with cause attached. -/
def catchHandler (timeout : Int) : CaughtError → UptimeError
  | .uptime e => e
  | .low c =>
    match c with
    | .domException name =>
      if name = "AbortError" then
        { message := "Request timed out after " ++ intToString timeout ++ "ms",
          cause := some (.domException name) }
      else
        { message := "Failed to send heartbeat", cause := some (.domException name) }
    | .error m =>
      { message := "Failed to send heartbeat", cause := some (.error m) }

/-- The `sendHeartbeat` method, line by line: build the URL (propagating its error before
any effect), resolve method (`options?.method || 'GET'`) and timeout
(`options?.timeout ?? this.defaultTimeout`), start the timer, await the
transport. `clearTimeout` is the statement directly after the `await`, so it
executes only when `fetch` resolves; a rejection jumps to `catch` past it.
A non-ok response raises the HTTP-failure `UptimeError`, which the `catch`
re-throws unchanged. -/
def Uptime.sendHeartbeat (c : Uptime) (heartbeatId : String)
    (options : HeartbeatOptions := {}) (fetched : FetchResult) :
    Except UptimeError Response × SendTrace :=
  match c.buildHeartbeatUrl heartbeatId options with
  | .error e => (.error e, { fetchCalled := false, timerStarted := false, timerCleared := false })
  | .ok url =>
    let method := options.method.getD .GET
    let timeout := options.timeout.getD c.defaultTimeout
    let tr : SendTrace :=
      { fetchCalled := true, fetchUrl := some url, fetchMethod := some method,
        fetchUserAgent := some c.userAgent, fetchAccept := some "application/json",
        timerStarted := true, timerDelay := some timeout, timerCleared := false }
    match fetched with
    | .resolves r =>
      let tr := { tr with timerCleared := true }
      if r.ok then
        (.ok r, tr)
      else
        (.error (catchHandler timeout (.uptime
          { message := "Heartbeat failed: " ++ natToString r.status ++ " " ++ r.statusText,
            status := some r.status, statusText := some r.statusText })), tr)
    | .rejects e => (.error (catchHandler timeout e), tr)

/-- The `reportSuccess` wrapper: forwards to `sendHeartbeat` unchanged (the narrowing of
the options type is compile-time only). -/
def Uptime.reportSuccess (c : Uptime) (heartbeatId : String)
    (options : HeartbeatOptions := {}) (fetched : FetchResult) :
    Except UptimeError Response × SendTrace :=
  c.sendHeartbeat heartbeatId options fetched

/-- The `reportFailure` wrapper: forwards with `reportFailure: true` spread over the options. -/
def Uptime.reportFailure (c : Uptime) (heartbeatId : String)
    (options : HeartbeatOptions := {}) (fetched : FetchResult) :
    Except UptimeError Response × SendTrace :=
  c.sendHeartbeat heartbeatId { options with reportFailure := some true } fetched

/-- The `reportWithExitCode` wrapper: forwards with the exit code spread over the options. -/
def Uptime.reportWithExitCode (c : Uptime) (heartbeatId : String) (exitCode : JsNum)
    (options : HeartbeatOptions := {}) (fetched : FetchResult) :
    Except UptimeError Response × SendTrace :=
  c.sendHeartbeat heartbeatId { options with exitCode := some exitCode } fetched

/-- Modelled from the spec: the reference `buildHeartbeatUrl` of §4.1, a pure
function of `(baseUrl, heartbeatId, reportFailure, exitCode)` with an integer
exit code; `none` is an `InvalidArgument` failure. -/
def buildHeartbeatUrlRef (baseUrl heartbeatId : String) (reportFailure : Bool)
    (exitCode : Option Int) : Option String :=
  if heartbeatId = "" then
    none
  else
    let base := baseUrl ++ "/heartbeat/" ++ heartbeatId
    if reportFailure then
      some (base ++ "/fail")
    else
      match exitCode with
      | none => some base
      | some k => if k < 0 ∨ 255 < k then none else some (base ++ "/" ++ intToString k)

/-- The four operations in state-passing form: each returns the client value
that the receiver holds after the call. The method bodies contain no
assignment to `this` (only the constructor writes fields), so the post-state
is the receiver unchanged. -/
def Uptime.sendHeartbeatSt (c : Uptime) (heartbeatId : String)
    (options : HeartbeatOptions) (fetched : FetchResult) :
    (Except UptimeError Response × SendTrace) × Uptime :=
  (c.sendHeartbeat heartbeatId options fetched, c)

/-- State-passing form of `reportSuccess` (no assignment to `this` in the body). -/
def Uptime.reportSuccessSt (c : Uptime) (heartbeatId : String)
    (options : HeartbeatOptions) (fetched : FetchResult) :
    (Except UptimeError Response × SendTrace) × Uptime :=
  (c.reportSuccess heartbeatId options fetched, c)

/-- State-passing form of `reportFailure` (no assignment to `this` in the body). -/
def Uptime.reportFailureSt (c : Uptime) (heartbeatId : String)
    (options : HeartbeatOptions) (fetched : FetchResult) :
    (Except UptimeError Response × SendTrace) × Uptime :=
  (c.reportFailure heartbeatId options fetched, c)

/-- State-passing form of `reportWithExitCode` (no assignment to `this` in the body). -/
def Uptime.reportWithExitCodeSt (c : Uptime) (heartbeatId : String) (exitCode : JsNum)
    (options : HeartbeatOptions) (fetched : FetchResult) :
    (Except UptimeError Response × SendTrace) × Uptime :=
  (c.reportWithExitCode heartbeatId exitCode options fetched, c)

/-! Helper lemmas -/

/-- Template-literal rendering of an integer-valued JS number agrees with `intToString`. -/
theorem JsNum.render_intCast (k : ℤ) : (JsNum.num (k : ℚ)).render = intToString k := by
  simp only [JsNum.render, intToString, Rat.num_intCast, Rat.den_intCast, Nat.mod_one,
    Nat.div_one, reduceIte]

/-- The `exitCode < 0 || exitCode > 255` check, on an integer-valued JS number,
is the integer range check. -/
theorem exitCode_check_intCast (k : ℤ) :
    ((JsNum.num (k : ℚ)).lt (.num 0) || (JsNum.num 255).lt (.num (k : ℚ))) =
      decide (k < 0 ∨ 255 < k) := by
  by_cases h0 : k < 0
  · have hq : (k : ℚ) < 0 := by exact_mod_cast h0
    simp [JsNum.lt, hq, h0]
  · by_cases h255 : 255 < k
    · have hq : (255 : ℚ) < (k : ℚ) := by exact_mod_cast h255
      simp [JsNum.lt, hq, h255]
    · have hq0 : ¬ ((k : ℚ) < 0) := by exact_mod_cast h0
      have hq255 : ¬ ((255 : ℚ) < (k : ℚ)) := by exact_mod_cast h255
      simp [JsNum.lt, hq0, hq255, h0, h255]

/-- Any error produced by `buildHeartbeatUrl` carries a message only. -/
theorem buildHeartbeatUrl_error_fields (c : Uptime) (heartbeatId : String)
    (options : HeartbeatOptions) (e : UptimeError)
    (h : c.buildHeartbeatUrl heartbeatId options = .error e) :
    e.status = none ∧ e.statusText = none ∧ e.cause = none := by
  unfold Uptime.buildHeartbeatUrl at h
  split at h
  · cases h
    exact ⟨rfl, rfl, rfl⟩
  · split at h
    · cases h
    · split at h
      · cases h
      · split at h
        · cases h
          exact ⟨rfl, rfl, rfl⟩
        · cases h

/-! Claim theorems -/

/-- Claim C8: for an empty heartbeat identifier, `sendHeartbeat` always fails with
an `InvalidArgument` error carrying a message only (no status, no statusText, no
cause), for every combination of the other options and every transport outcome,
and performs no external effect. -/
theorem sendHeartbeat_empty_id (c : Uptime) (options : HeartbeatOptions)
    (fetched : FetchResult) :
    c.sendHeartbeat "" options fetched =
      (.error { message := "Heartbeat ID is required", status := none,
                statusText := none, cause := none },
       { fetchCalled := false, timerStarted := false, timerCleared := false }) := rfl

/-- Claim C9: a client's configuration is set only at construction: each of the four
operations, in state-passing form, leaves the receiver exactly as it was, for every
input and every transport outcome (success or failure). -/
theorem client_config_immutable (c : Uptime) (heartbeatId : String) (exitCode : JsNum)
    (options : HeartbeatOptions) (fetched : FetchResult) :
    (c.sendHeartbeatSt heartbeatId options fetched).2 = c ∧
    (c.reportSuccessSt heartbeatId options fetched).2 = c ∧
    (c.reportFailureSt heartbeatId options fetched).2 = c ∧
    (c.reportWithExitCodeSt heartbeatId exitCode options fetched).2 = c :=
  ⟨rfl, rfl, rfl, rfl⟩

/-- Claim C1 (evaluation at the failing input): when the transport rejects, the
cancellation timer that was started is not disarmed — `clearTimeout` sits after the
`await`, so a rejection jumps to `catch` past it — while on both resolve paths
(ok and non-ok response) it is disarmed. -/
theorem sendHeartbeat_timer_not_cleared_on_reject :
    (((Uptime.create {}).sendHeartbeat "abc123" {}
        (.rejects (.low (.error "connect ECONNREFUSED")))).2.timerStarted = true ∧
     ((Uptime.create {}).sendHeartbeat "abc123" {}
        (.rejects (.low (.error "connect ECONNREFUSED")))).2.timerCleared = false) ∧
    ((Uptime.create {}).sendHeartbeat "abc123" {}
        (.resolves { status := 200, statusText := "OK", ok := true })).2.timerCleared = true ∧
    ((Uptime.create {}).sendHeartbeat "abc123" {}
        (.resolves { status := 404, statusText := "Not Found", ok := false })).2.timerCleared
      = true :=
  ⟨⟨rfl, rfl⟩, rfl, rfl⟩

/-- Claim C5: if the cancellation timer fires before the transport produces a
response (the awaited `fetch` rejects with the `AbortError` `DOMException`),
`sendHeartbeat` fails with a timeout error whose message states the effective
timeout in milliseconds and whose cause is the cancellation signal. -/
theorem sendHeartbeat_timeout_error (c : Uptime) (heartbeatId : String)
    (options : HeartbeatOptions) (url : String)
    (h : c.buildHeartbeatUrl heartbeatId options = .ok url) :
    (c.sendHeartbeat heartbeatId options
        (.rejects (.low (.domException "AbortError")))).1 =
      .error { message := "Request timed out after " ++
                 intToString (options.timeout.getD c.defaultTimeout) ++ "ms",
               cause := some (.domException "AbortError") } := by
  simp [Uptime.sendHeartbeat, h, catchHandler]

theorem sendHeartbeat_timeout_error_witness :
    ((Uptime.create {}).sendHeartbeat "abc123" {}
        (.rejects (.low (.domException "AbortError")))).1 =
      .error { message := "Request timed out after 10000ms",
               cause := some (.domException "AbortError") } := by
  have h := sendHeartbeat_timeout_error (Uptime.create {}) "abc123" {}
    "https://uptime.betterstack.com/api/v1/heartbeat/abc123" rfl
  simpa using h

/-- Claim C6: whenever a response is obtained whose `ok` is false, `sendHeartbeat`
fails with an error carrying the response's status and statusText and whose message
is exactly `"Heartbeat failed: {status} {statusText}"`. -/
theorem sendHeartbeat_http_failure (c : Uptime) (heartbeatId : String)
    (options : HeartbeatOptions) (url : String) (r : Response)
    (h : c.buildHeartbeatUrl heartbeatId options = .ok url) (hok : r.ok = false) :
    (c.sendHeartbeat heartbeatId options (.resolves r)).1 =
      .error { message := "Heartbeat failed: " ++ natToString r.status ++ " " ++ r.statusText,
               status := some r.status, statusText := some r.statusText } := by
  simp [Uptime.sendHeartbeat, h, hok, catchHandler]

theorem sendHeartbeat_http_failure_witness :
    ((Uptime.create {}).sendHeartbeat "abc123" {}
        (.resolves { status := 404, statusText := "Not Found", ok := false })).1 =
      .error { message := "Heartbeat failed: 404 Not Found",
               status := some 404, statusText := some "Not Found" } := by
  have h := sendHeartbeat_http_failure (Uptime.create {}) "abc123" {}
    "https://uptime.betterstack.com/api/v1/heartbeat/abc123"
    { status := 404, statusText := "Not Found", ok := false } rfl rfl
  simpa using h

/-- Claim C4: every failure of `sendHeartbeat` surfaces as the one typed error kind
(the result type is `Except UptimeError Response`): an already-typed error reaching
the catch point is re-thrown unchanged with no double-wrapping, and a non-timeout
transport-level rejection is wrapped as the transport-failure error whose cause is
the underlying low-level error. -/
theorem sendHeartbeat_error_normalization (c : Uptime) (heartbeatId : String)
    (options : HeartbeatOptions) (url : String) (e : CaughtError)
    (h : c.buildHeartbeatUrl heartbeatId options = .ok url) :
    (∀ ue, e = .uptime ue →
      (c.sendHeartbeat heartbeatId options (.rejects e)).1 = .error ue) ∧
    (∀ low, e = .low low → low.isAbort = false →
      (c.sendHeartbeat heartbeatId options (.rejects e)).1 =
        .error { message := "Failed to send heartbeat", cause := some low }) := by
  constructor
  · rintro ue rfl
    simp [Uptime.sendHeartbeat, h, catchHandler]
  · rintro low rfl hab
    cases low with
    | domException name =>
      have hname : ¬ (name = "AbortError") := by simpa [Cause.isAbort] using hab
      simp [Uptime.sendHeartbeat, h, catchHandler, hname]
    | error m =>
      simp [Uptime.sendHeartbeat, h, catchHandler]

theorem sendHeartbeat_error_normalization_witness :
    ((Uptime.create {}).sendHeartbeat "abc123" {}
        (.rejects (.low (.error "connect ECONNREFUSED")))).1 =
      .error { message := "Failed to send heartbeat",
               cause := some (.error "connect ECONNREFUSED") } :=
  (sendHeartbeat_error_normalization (Uptime.create {}) "abc123" {}
      "https://uptime.betterstack.com/api/v1/heartbeat/abc123"
      (.low (.error "connect ECONNREFUSED")) rfl).2
    (.error "connect ECONNREFUSED") rfl rfl

/-- Claim C7: for every integer exit code outside `[0,255]` and every non-empty
identifier (with no truthy failure flag overriding the exit code), both
`reportWithExitCode` and `sendHeartbeat` with that exit code reject with an
`InvalidArgument` error (message only), the transport is never invoked, and no
timer is started — for every transport outcome. -/
theorem reportWithExitCode_rejects_out_of_range (c : Uptime) (heartbeatId : String)
    (options : HeartbeatOptions) (fetched : FetchResult) (k : ℤ)
    (hid : heartbeatId ≠ "") (hk : k < 0 ∨ 255 < k)
    (hrf : options.reportFailure ≠ some true) :
    ∃ err, (c.reportWithExitCode heartbeatId (.num (k : ℚ)) options fetched).1 = .error err ∧
      (c.sendHeartbeat heartbeatId { options with exitCode := some (.num (k : ℚ)) }
        fetched).1 = .error err ∧
      err.status = none ∧ err.statusText = none ∧ err.cause = none ∧
      (c.reportWithExitCode heartbeatId (.num (k : ℚ)) options fetched).2.fetchCalled
        = false ∧
      (c.reportWithExitCode heartbeatId (.num (k : ℚ)) options fetched).2.timerStarted
        = false := by
  have hcheck : ((JsNum.num (k : ℚ)).lt (.num 0) || (JsNum.num 255).lt (.num (k : ℚ)))
      = true := by
    rw [exitCode_check_intCast]
    exact decide_eq_true hk
  refine ⟨{ message := "Exit code must be between 0 and 255, got " ++
      (JsNum.num (k : ℚ)).render }, ?_⟩
  simp [Uptime.reportWithExitCode, Uptime.sendHeartbeat, Uptime.buildHeartbeatUrl,
    hid, hrf, hcheck]

theorem reportWithExitCode_rejects_out_of_range_witness :
    ∃ err, ((Uptime.create {}).reportWithExitCode "abc123" (.num ((300 : ℤ) : ℚ)) {}
        (.resolves { status := 200, statusText := "OK", ok := true })).1 = .error err ∧
      ((Uptime.create {}).sendHeartbeat "abc123" { exitCode := some (.num ((300 : ℤ) : ℚ)) }
        (.resolves { status := 200, statusText := "OK", ok := true })).1 = .error err ∧
      err.status = none ∧ err.statusText = none ∧ err.cause = none ∧
      ((Uptime.create {}).reportWithExitCode "abc123" (.num ((300 : ℤ) : ℚ)) {}
        (.resolves { status := 200, statusText := "OK", ok := true })).2.fetchCalled
        = false ∧
      ((Uptime.create {}).reportWithExitCode "abc123" (.num ((300 : ℤ) : ℚ)) {}
        (.resolves { status := 200, statusText := "OK", ok := true })).2.timerStarted
        = false :=
  reportWithExitCode_rejects_out_of_range (Uptime.create {}) "abc123" {}
    (.resolves { status := 200, statusText := "OK", ok := true }) 300
    (by decide) (by decide) (by decide)

/-- Claim C2: `buildHeartbeatUrl` is a pure function of
`(baseUrl, heartbeatId, reportFailure, exitCode)` that refines the reference
definition of the spec on integer exit codes: same success URLs, same failure
cases, and every failure is an `InvalidArgument` error carrying a message only
(in particular, a truthy failure flag appends `/fail` and ignores any exit code,
even an out-of-range one). -/
theorem buildHeartbeatUrl_refines_spec (c : Uptime) (heartbeatId : String)
    (orf : Option Bool) (ec : Option ℤ) (om : Option Method) (ot : Option Int) :
    (c.buildHeartbeatUrl heartbeatId
        { exitCode := ec.map (fun k => JsNum.num (k : ℚ)), reportFailure := orf,
          method := om, timeout := ot }).toOption =
      buildHeartbeatUrlRef c.baseUrl heartbeatId (orf.getD false) ec ∧
    (∀ e, c.buildHeartbeatUrl heartbeatId
        { exitCode := ec.map (fun k => JsNum.num (k : ℚ)), reportFailure := orf,
          method := om, timeout := ot } = .error e →
      e.status = none ∧ e.statusText = none ∧ e.cause = none) := by
  refine ⟨?_, fun e he => buildHeartbeatUrl_error_fields c heartbeatId _ e he⟩
  by_cases hid : heartbeatId = ""
  · simp [Uptime.buildHeartbeatUrl, buildHeartbeatUrlRef, hid, Except.toOption]
  · have hfail : ∀ hrf : orf = some true,
        (c.buildHeartbeatUrl heartbeatId
          { exitCode := ec.map (fun k => JsNum.num (k : ℚ)), reportFailure := orf,
            method := om, timeout := ot }).toOption =
          buildHeartbeatUrlRef c.baseUrl heartbeatId (orf.getD false) ec := by
      intro hrf
      simp [Uptime.buildHeartbeatUrl, buildHeartbeatUrlRef, hid, hrf, Except.toOption]
    have hplain : ∀ hrf : orf ≠ some true, orf.getD false = false →
        (c.buildHeartbeatUrl heartbeatId
          { exitCode := ec.map (fun k => JsNum.num (k : ℚ)), reportFailure := orf,
            method := om, timeout := ot }).toOption =
          buildHeartbeatUrlRef c.baseUrl heartbeatId (orf.getD false) ec := by
      intro hrf hgd
      rcases ec with _ | k
      · simp [Uptime.buildHeartbeatUrl, buildHeartbeatUrlRef, hid, hrf, hgd,
          Except.toOption]
      · by_cases hk : k < 0 ∨ 255 < k
        · have hchk : ((JsNum.num (k : ℚ)).lt (.num 0) ||
              (JsNum.num 255).lt (.num (k : ℚ))) = true := by
            rw [exitCode_check_intCast]
            exact decide_eq_true hk
          simp [Uptime.buildHeartbeatUrl, buildHeartbeatUrlRef, hid, hrf, hgd, hchk, hk,
            Except.toOption]
        · have hchk : ((JsNum.num (k : ℚ)).lt (.num 0) ||
              (JsNum.num 255).lt (.num (k : ℚ))) = false := by
            rw [exitCode_check_intCast]
            exact decide_eq_false hk
          simp [Uptime.buildHeartbeatUrl, buildHeartbeatUrlRef, hid, hrf, hgd, hchk, hk,
            Except.toOption, JsNum.render_intCast]
    rcases orf with _ | b
    · exact hplain (by simp) rfl
    · cases b
      · exact hplain (by simp) rfl
      · exact hfail rfl

theorem buildHeartbeatUrl_refines_spec_witness :
    buildHeartbeatUrlRef "https://uptime.betterstack.com/api/v1" "abc123" true (some 300) =
      some "https://uptime.betterstack.com/api/v1/heartbeat/abc123/fail" ∧
    buildHeartbeatUrlRef "https://uptime.betterstack.com/api/v1" "abc123" false (some 42) =
      some "https://uptime.betterstack.com/api/v1/heartbeat/abc123/42" := by
  have h1 := (buildHeartbeatUrl_refines_spec (Uptime.create {}) "abc123"
    (some true) (some 300) none none).1
  have h2 := (buildHeartbeatUrl_refines_spec (Uptime.create {}) "abc123"
    none (some 42) none none).1
  exact ⟨h1.symm.trans rfl, h2.symm.trans rfl⟩

/-- Claim C10: the exit-code validation is a purely numeric range check: every
JS number in `[0,255]` — integral or not — raises no error and is appended via
template-literal stringification, and `NaN`, which satisfies neither comparison
of `exitCode < 0 || exitCode > 255`, is appended as the path segment `NaN`. -/
theorem buildHeartbeatUrl_numeric_check (c : Uptime) (heartbeatId : String)
    (om : Option Method) (ot : Option Int) (q : ℚ)
    (hid : heartbeatId ≠ "") (h0 : 0 ≤ q) (h255 : q ≤ 255) :
    c.buildHeartbeatUrl heartbeatId
        { exitCode := some (.num q), method := om, timeout := ot } =
      .ok (c.baseUrl ++ "/heartbeat/" ++ heartbeatId ++ "/" ++ (JsNum.num q).render) ∧
    c.buildHeartbeatUrl heartbeatId
        { exitCode := some .nan, method := om, timeout := ot } =
      .ok (c.baseUrl ++ "/heartbeat/" ++ heartbeatId ++ "/NaN") ∧
    JsNum.nan.lt (.num 0) = false ∧ (JsNum.num 255).lt .nan = false := by
  have hn0 : ¬ (q < 0) := not_lt.mpr h0
  have hn255 : ¬ ((255 : ℚ) < q) := not_lt.mpr h255
  refine ⟨?_, ?_, rfl, rfl⟩
  · simp [Uptime.buildHeartbeatUrl, hid, JsNum.lt, hn0, hn255]
  · have hseg : ∀ s : String, s ++ "/" ++ "NaN" = s ++ "/NaN" := fun s =>
      (String.append_assoc s "/" "NaN").trans rfl
    rw [Uptime.buildHeartbeatUrl, if_neg hid]
    exact congrArg Except.ok (hseg _)

theorem buildHeartbeatUrl_numeric_check_witness :
    (Uptime.create {}).buildHeartbeatUrl "abc123"
        { exitCode := some (.num (⟨7, 2, by decide, by decide⟩ : ℚ)) } =
      .ok "https://uptime.betterstack.com/api/v1/heartbeat/abc123/3.5" ∧
    (Uptime.create {}).buildHeartbeatUrl "abc123" { exitCode := some .nan } =
      .ok "https://uptime.betterstack.com/api/v1/heartbeat/abc123/NaN" := by
  have h := buildHeartbeatUrl_numeric_check (Uptime.create {}) "abc123" none none
    (⟨7, 2, by decide, by decide⟩ : ℚ) (by decide) (by decide) (by decide)
  exact ⟨h.1.trans rfl, h.2.1.trans rfl⟩

/-- Claim C3 (counterexample): a supplied `defaultTimeout` of `0` does not take
effect — `config?.defaultTimeout || 10000` treats `0` as falsy — and likewise a
supplied empty `baseUrl` is discarded by the `if (config?.baseUrl)` truthiness
check. -/
theorem create_zero_timeout_counterexample :
    (Uptime.create { defaultTimeout := some 0 }).defaultTimeout = 10000 ∧
    (Uptime.create { defaultTimeout := some 0 }).defaultTimeout ≠ 0 ∧
    (Uptime.create { baseUrl := some "" }).baseUrl ≠ "" :=
  ⟨rfl, by decide, by decide⟩

/-- Claim C3 (amended): construction never fails (`Uptime.create` is total); a
supplied truthy option takes effect — a non-empty `baseUrl`, a non-empty
`version` as the User-Agent suffix `uptime-betterstack-bun/<version>`, a
non-zero `defaultTimeout` — while an unset option, and equally a falsy supplied
one (empty `baseUrl`, empty `version`, zero `defaultTimeout`), falls back to the
stated default (the canonical API root, version `1.0.0`, 10000 ms). -/
theorem create_truthy_overrides (config : UptimeConfig) :
    (∀ b, config.baseUrl = some b → b ≠ "" → (Uptime.create config).baseUrl = b) ∧
    (∀ v, config.version = some v → v ≠ "" →
      (Uptime.create config).userAgent = "uptime-betterstack-bun/" ++ v) ∧
    (∀ t, config.defaultTimeout = some t → t ≠ 0 →
      (Uptime.create config).defaultTimeout = t) ∧
    ((config.baseUrl = none ∨ config.baseUrl = some "") →
      (Uptime.create config).baseUrl = "https://uptime.betterstack.com/api/v1") ∧
    ((config.version = none ∨ config.version = some "") →
      (Uptime.create config).userAgent = "uptime-betterstack-bun/1.0.0") ∧
    ((config.defaultTimeout = none ∨ config.defaultTimeout = some 0) →
      (Uptime.create config).defaultTimeout = 10000) := by
  refine ⟨?_, ?_, ?_, ?_, ?_, ?_⟩
  · rintro b hb hne
    simp [Uptime.create, hb, hne]
  · rintro v hv hne
    simp [Uptime.create, hv, hne]
  · rintro t ht hne
    simp [Uptime.create, ht, hne]
  · rintro (hb | hb) <;> simp [Uptime.create, hb]
  · rintro (hv | hv) <;> simp [Uptime.create, hv]
  · rintro (ht | ht) <;> simp [Uptime.create, ht]

theorem create_truthy_overrides_witness :
    (Uptime.create { baseUrl := some "https://example.test",
                     version := some "2.0.0",
                     defaultTimeout := some 5 }).baseUrl = "https://example.test" ∧
    (Uptime.create { baseUrl := some "https://example.test",
                     version := some "2.0.0",
                     defaultTimeout := some 5 }).userAgent = "uptime-betterstack-bun/2.0.0" ∧
    (Uptime.create { baseUrl := some "https://example.test",
                     version := some "2.0.0",
                     defaultTimeout := some 5 }).defaultTimeout = 5 := by
  have h := create_truthy_overrides
    { baseUrl := some "https://example.test", version := some "2.0.0",
      defaultTimeout := some 5 }
  exact ⟨h.1 _ rfl (by decide), h.2.1 _ rfl (by decide), h.2.2.1 _ rfl (by decide)⟩

end UptimeClient
